import Mathlib

/-
Verification of the RaaS admin dashboard client logic: composite product
keys, filter-to-query-parameter reconciliation, percentage/fraction
conversion at the create/edit form boundary, the manual refresh cooldown
guard, the 401 session-teardown interceptor, post-mutation cache
invalidation ordering, selection deduplication, and the ad-window metric
projection.

JavaScript values are shallowly embedded: strings as `String`, JS numbers
as `ℚ` (the client performs only exact-by-intent arithmetic: * 100 and
/ 100), optional / nullable fields as `Option`, millisecond timestamps as
`Int`, and the dynamically-typed filter objects as association lists of a
`JsVal` sum type covering the runtime shapes the code tests for
(string, string array, number, null, undefined).
-/

namespace RaasAdmin

/-- Models the JS expression `s || ''` on a string value: the empty string is
falsy and falls back to `''` (identity on strings, kept to mirror the source). -/
def jsOrEmpty (s : String) : String :=
  if s = "" then "" else s

/-- Models the JS expression `x || d` on an optional string: `undefined`
(`none`) and the empty string are falsy and fall back to the default `d`. -/
def jsOrDefault (x : Option String) (d : String) : String :=
  match x with
  | none => d
  | some s => if s = "" then d else s

/-- `Product` from `src/services/types/raas.type.ts`. Required string fields
are `String`; optional numeric fields are `Option ℚ`; optional string fields
are `Option String`. -/
structure Product where
  amazon_profile_name : String
  hanna_org_name : String
  asin : String
  category_name : String
  raas_plan : String
  start_date : String
  end_date : String
  baseline_sales_rank : Option ℚ := none
  target_acos : Option ℚ := none
  target_ad_spend : Option ℚ := none
  status : Option String := none
  marketplace : Option String := none
deriving DecidableEq

/-- `ProductCreate` from `raas.type.ts` (same field list as `Product`); also
used to model `ProductUpdate` and the modal `formData`, which share the shape. -/
structure ProductCreate where
  amazon_profile_name : String
  hanna_org_name : String
  asin : String
  category_name : String
  raas_plan : String
  start_date : String
  end_date : String
  baseline_sales_rank : Option ℚ := none
  target_acos : Option ℚ := none
  target_ad_spend : Option ℚ := none
  status : Option String := none
  marketplace : Option String := none
deriving DecidableEq

/-- `ProductProgress` from `raas.type.ts`: the product fields joined with the
computed progress metrics and the four per-window flattened ad-metric sets. -/
structure ProductProgress where
  amazon_profile_name : String
  hanna_org_name : String
  asin : String
  category_name : String
  raas_plan : String
  start_date : String
  end_date : String
  baseline_sales_rank : Option ℚ := none
  target_acos : Option ℚ := none
  target_ad_spend : Option ℚ := none
  status : Option String := none
  marketplace : Option String := none
  img_url : Option String := none
  days_remaining : Option ℚ := none
  current_sales_rank : Option ℚ := none
  climb_days_met : Option ℚ := none
  days_taken : Option ℚ := none
  final_status_date : Option String := none
  cyber_minigun_actions : Option ℚ := none
  cyber_minigun_launch_groups : Option ℚ := none
  campaigns_created_by_cyber_minigun : Option ℚ := none
  adgroups_created_by_cyber_minigun : Option ℚ := none
  smart_campaigns : Option ℚ := none
  campaigns_created_by_smart_campaigns : Option ℚ := none
  adgroups_created_by_smart_campaigns : Option ℚ := none
  ad_spend_7d : Option ℚ := none
  ad_sales_7d : Option ℚ := none
  ad_orders_7d : Option ℚ := none
  acos_7d : Option ℚ := none
  ad_spend_14d : Option ℚ := none
  ad_sales_14d : Option ℚ := none
  ad_orders_14d : Option ℚ := none
  acos_14d : Option ℚ := none
  ad_spend_30d : Option ℚ := none
  ad_sales_30d : Option ℚ := none
  ad_orders_30d : Option ℚ := none
  acos_30d : Option ℚ := none
  ad_spend_rt : Option ℚ := none
  ad_sales_rt : Option ℚ := none
  ad_orders_rt : Option ℚ := none
  acos_rt : Option ℚ := none
deriving DecidableEq

/-- The body of `compositeKey` in the product-table component: the six
identity fields joined in fixed order with the delimiter `||`; `asin` goes
through the JS `|| ''` fallback (`const asins = row.asin || ''`). -/
def compositeKeyFields (amazonProfileName hannaOrgName asin categoryName raasPlan startDate : String) : String :=
  amazonProfileName ++ "||" ++ hannaOrgName ++ "||" ++ jsOrEmpty asin ++ "||" ++
    categoryName ++ "||" ++ raasPlan ++ "||" ++ startDate

/-- `compositeKey(row)` applied to a `Product`-shaped object. -/
def Product.compositeKey (row : Product) : String :=
  compositeKeyFields row.amazon_profile_name row.hanna_org_name row.asin
    row.category_name row.raas_plan row.start_date

/-- `compositeKey(row)` applied to a `ProductProgress` row (TS structural
typing lets the same function accept both shapes). -/
def ProductProgress.compositeKey (row : ProductProgress) : String :=
  compositeKeyFields row.amazon_profile_name row.hanna_org_name row.asin
    row.category_name row.raas_plan row.start_date

/-- A string free of the delimiter character `|`; the side condition under
which the `||`-joined composite key is injective. -/
abbrev noDelimChar (s : String) : Prop := ('|' : Char) ∉ s.data

/-- Runtime shapes a filter-object value can take, as tested by the code's
`Array.isArray` / `!== undefined` / `!== null` / `!== ''` checks. -/
inductive JsVal where
  | str (s : String)
  | arr (xs : List String)
  | num (n : Nat)
  | nullV
  | undefV
deriving DecidableEq

/-- A JS object such as `ProductFilter`, embedded as an association list in
key-insertion order (`Object.keys` iteration order). -/
abbrev FilterObj := List (String × JsVal)

/-- The `pagination` ref of the product-table component. -/
structure Pagination where
  current : Nat
  pageSize : Nat
  total : Nat
deriving DecidableEq

/-- The `queryParams` computed of the product-table component: `page` and
`page_size` always; every filter key is copied over unless it is
`ad_window` or its value is strictly equal to `undefined`, `null` or `''`. -/
def queryParams (pagination : Pagination) (filters : FilterObj) : FilterObj :=
  [("page", JsVal.num pagination.current), ("page_size", JsVal.num pagination.pageSize)] ++
    filters.filter (fun kv =>
      kv.1 != "ad_window" && kv.2 != JsVal.undefV && kv.2 != JsVal.nullV &&
        kv.2 != JsVal.str "")

/-- The parameter stripping inside `useGetProductProgress` (and the legacy
`getProductProgress`): `const (ad_window, ...restParams) = rawParams` removes
the `ad_window` key before the GET request to `/product-progress`. -/
def productProgressRequestParams (rawParams : FilterObj) : FilterObj :=
  rawParams.filter (fun kv => kv.1 != "ad_window")

/-- `handleSearch` of the filter-form component: array values are kept only
when nonempty; any other value is kept only when it is not `undefined`,
`null` or `''`. -/
def handleSearchFilters (filterForm : FilterObj) : FilterObj :=
  filterForm.filter (fun kv =>
    match kv.2 with
    | JsVal.arr xs => !xs.isEmpty
    | v => v != JsVal.undefV && v != JsVal.nullV && v != JsVal.str "")

/-- A value the spec calls empty: `undefined`, `null`, `''` or `[]`. -/
def isEmptyParamVal : JsVal → Bool
  | JsVal.undefV => true
  | JsVal.nullV => true
  | JsVal.str s => s == ""
  | JsVal.arr xs => xs.isEmpty
  | JsVal.num _ => false

/-- An empty scalar value: `undefined`, `null` or `''` (the three shapes
`queryParams` itself filters out). -/
def isEmptyScalarVal : JsVal → Bool
  | JsVal.undefV => true
  | JsVal.nullV => true
  | JsVal.str s => s == ""
  | _ => false

/-- C3 counterexample input: a filter object carrying an empty array. -/
def emptyArrFilter : FilterObj := [("amazon_profile_name", JsVal.arr [])]

/-- C1 counterexample: a product whose amazon profile field contains the
delimiter `||`. -/
def collisionP1 : Product :=
  { amazon_profile_name := "a||b", hanna_org_name := "c", asin := "s"
    category_name := "k", raas_plan := "r", start_date := "d", end_date := "" }

/-- C1 counterexample partner of `collisionP1`: the stray `||` moved from the
profile field into the org field. -/
def collisionP2 : Product :=
  { amazon_profile_name := "a", hanna_org_name := "b||c", asin := "s"
    category_name := "k", raas_plan := "r", start_date := "d", end_date := "" }

/-- The `formData` assignment in `handleEdit`: strings go through the JS
`|| ''` fallback, `baseline_sales_rank` and `target_ad_spend` pass through
(`?? null`), `target_acos` is multiplied by 100 when non-null
(backend stores a fraction, the form shows a percentage), `status` falls
back to `'ONGOING'` and `marketplace` to `'US'`. -/
def handleEditFormData (row : ProductProgress) : ProductCreate :=
  { amazon_profile_name := jsOrEmpty row.amazon_profile_name
    hanna_org_name := jsOrEmpty row.hanna_org_name
    asin := jsOrEmpty row.asin
    category_name := jsOrEmpty row.category_name
    raas_plan := jsOrEmpty row.raas_plan
    start_date := jsOrEmpty row.start_date
    end_date := jsOrEmpty row.end_date
    baseline_sales_rank := row.baseline_sales_rank
    target_acos :=
      match row.target_acos with
      | some v => some (v * 100)
      | none => none
    target_ad_spend := row.target_ad_spend
    status := some (jsOrDefault row.status "ONGOING")
    marketplace := some (jsOrDefault row.marketplace "US") }

/-- The `payload` built in `handleModalOk`: fields copied from the form,
`target_acos` divided by 100 when non-null (form shows a percentage, the
backend stores a fraction), and `status` spread in only when editing. -/
def handleModalOkPayload (formData : ProductCreate) (isEditing : Bool) : ProductCreate :=
  { amazon_profile_name := formData.amazon_profile_name
    hanna_org_name := formData.hanna_org_name
    asin := formData.asin
    category_name := formData.category_name
    raas_plan := formData.raas_plan
    start_date := formData.start_date
    end_date := formData.end_date
    baseline_sales_rank := formData.baseline_sales_rank
    target_acos :=
      match formData.target_acos with
      | some v => some (v / 100)
      | none => none
    target_ad_spend := formData.target_ad_spend
    marketplace := formData.marketplace
    status := if isEditing then formData.status else none }

/-- The reactive state read by the manual-refresh guard in the product-table
component: the `isUpdating` mutation flag, the `hasTriggeredUpdate` ref, the
`updateCooldownRemaining` countdown (seconds) and the last-update timestamp
(milliseconds) behind `lastUpdateTimeData`. -/
structure UpdateControlState where
  isUpdating : Bool
  hasTriggeredUpdate : Bool
  updateCooldownRemaining : Int
  lastUpdatedAt : Option Int
deriving DecidableEq

/-- The `timeSinceLastUpdate` computed: `Math.floor((now - last) / 1000)`
seconds; `none` models the `Infinity` branch taken when no timestamp exists. -/
def timeSinceLastUpdate (s : UpdateControlState) (nowMs : Int) : Option Int :=
  match s.lastUpdatedAt with
  | none => none
  | some t => some ((nowMs - t).fdiv 1000)

/-- The `isInCooldown` computed: `updateCooldownRemaining > 0`. -/
def isInCooldown (s : UpdateControlState) : Bool :=
  decide (0 < s.updateCooldownRemaining)

/-- The `isUpdateDisabled` computed, with its three early returns flattened
into a disjunction: updating or already triggered, in cooldown, or less than
`MIN_UPDATE_INTERVAL = 30` seconds since the last known update (the
`Infinity` branch never satisfies `< 30`). -/
def isUpdateDisabled (s : UpdateControlState) (nowMs : Int) : Bool :=
  s.isUpdating || s.hasTriggeredUpdate || isInCooldown s ||
    (match timeSinceLastUpdate s nowMs with
     | some t => decide (t < 30)
     | none => false)

/-- `handleUpdateData`: when the guard disables the button nothing is sent
and the state is unchanged; otherwise `hasTriggeredUpdate` is set and the
trigger request goes out. Returns the new state and whether a trigger-update
request was issued. -/
def handleUpdateData (s : UpdateControlState) (nowMs : Int) : UpdateControlState × Bool :=
  if isUpdateDisabled s nowMs then (s, false)
  else ({ s with hasTriggeredUpdate := true }, true)

/-- Observable session-level actions of the axios response interceptor. -/
inductive SessionAction where
  | clearAuthState
  | navigate (path : String)
deriving DecidableEq

/-- The response-error interceptor installed by
`createAxiosInstanceWithInterceptors`: on a 401 response it clears the auth
store and navigates to `/auth/sign-in` — through the global router when one
was registered, else through a location redirect, a single navigation either
way — and in every case re-rejects the error (the request is not retried).
Returns the emitted actions and whether the error is propagated as a
rejection. -/
def onResponseError (hasGlobalRouter : Bool) (responseStatus : Option Nat) :
    List SessionAction × Bool :=
  if responseStatus = some 401 then
    (SessionAction.clearAuthState ::
      (if hasGlobalRouter then [SessionAction.navigate "/auth/sign-in"]
       else [SessionAction.navigate "/auth/sign-in"]), true)
  else ([], true)

/-- Observable effects of a mutation's `onSuccess` handler, in program order. -/
inductive ApiEvent where
  | httpPost (path : String)
  | delayMs (n : Nat)
  | invalidateQueries (key : String)
deriving DecidableEq

/-- The `onSuccess` handler of `useCreateProduct`: first `await` a POST to
`/progress/update`, then a 2000 ms `setTimeout` whose callback invalidates
the `products`, `productProgress` and `lastUpdateTime` query caches. -/
def createProductOnSuccess : List ApiEvent :=
  [ApiEvent.httpPost "/progress/update", ApiEvent.delayMs 2000,
   ApiEvent.invalidateQueries "products",
   ApiEvent.invalidateQueries "productProgress",
   ApiEvent.invalidateQueries "lastUpdateTime"]

/-- The `onSuccess` handler of `useUpdateProduct` (same body as the create
hook's handler). -/
def updateProductOnSuccess : List ApiEvent :=
  [ApiEvent.httpPost "/progress/update", ApiEvent.delayMs 2000,
   ApiEvent.invalidateQueries "products",
   ApiEvent.invalidateQueries "productProgress",
   ApiEvent.invalidateQueries "lastUpdateTime"]

/-- The `onSuccess` handler of `useCancelProduct` (same body as the create
hook's handler). -/
def cancelProductOnSuccess : List ApiEvent :=
  [ApiEvent.httpPost "/progress/update", ApiEvent.delayMs 2000,
   ApiEvent.invalidateQueries "products",
   ApiEvent.invalidateQueries "productProgress",
   ApiEvent.invalidateQueries "lastUpdateTime"]

/-- A rendered table row from `flattenedRows`: the `_key` string and the
product it came from. -/
structure FlattenedRow where
  rowKey : String
  product : ProductProgress

/-- `flattenedRows`: one row per product of the current page; `_key` is the
inline composite-key expression with `_` and the asin appended. -/
def flattenedRows (tableData : List ProductProgress) : List FlattenedRow :=
  tableData.map (fun product =>
    let asin := jsOrEmpty product.asin
    let pKey := product.amazon_profile_name ++ "||" ++ product.hanna_org_name ++ "||" ++
      asin ++ "||" ++ product.category_name ++ "||" ++ product.raas_plan ++ "||" ++
      product.start_date
    { rowKey := pKey ++ "_" ++ asin, product := product })

/-- The loop body of the `selectedProducts` computed: walk the rendered rows
and keep a selected row's product only when its composite key was not seen
before. -/
def selectedProductsGo (selectedRowKeys : List String) :
    List FlattenedRow → List String → List ProductProgress
  | [], _ => []
  | row :: rows, seen =>
    if row.rowKey ∈ selectedRowKeys then
      if row.product.compositeKey ∈ seen then
        selectedProductsGo selectedRowKeys rows seen
      else
        row.product :: selectedProductsGo selectedRowKeys rows
          (row.product.compositeKey :: seen)
    else
      selectedProductsGo selectedRowKeys rows seen

/-- The `selectedProducts` computed: deduplicate the selected rendered rows
by product composite key, starting from an empty `seen` set. -/
def selectedProducts (tableData : List ProductProgress) (selectedRowKeys : List String) :
    List ProductProgress :=
  selectedProductsGo selectedRowKeys (flattenedRows tableData) []

/-- Concrete ongoing row used in the C8 deduplication scenario. -/
def progressRowOngoing : ProductProgress :=
  { amazon_profile_name := "profile", hanna_org_name := "org", asin := "B01"
    category_name := "cat", raas_plan := "Climb Plan"
    start_date := "2025-01-01", end_date := "2025-12-31"
    status := some "ONGOING" }

/-- Same identity fields as `progressRowOngoing` but a different status. -/
def progressRowCancelled : ProductProgress :=
  { progressRowOngoing with status := some "CANCELLED" }

/-- `currentAdWindow` (product table and dashboard page):
`filters.ad_window || '30d'`. -/
def currentAdWindow (ad_window : Option String) : String :=
  jsOrDefault ad_window "30d"

/-- The flat ad-metric record `getAdData` returns. -/
structure AdData where
  ad_spend : Option ℚ
  ad_sales : Option ℚ
  ad_orders : Option ℚ
  acos : Option ℚ
deriving DecidableEq

/-- `getAdData`: the window string is mapped to a field suffix by chained
string comparisons defaulting to `30d`; the template-string field lookup
`product[..._${suffix}]` is modeled by branching on the suffix. -/
def getAdData (product : ProductProgress) (ad_window : Option String) : AdData :=
  let adWindow := currentAdWindow ad_window
  let suffix :=
    if adWindow = "7d" then "7d"
    else if adWindow = "14d" then "14d"
    else if adWindow = "rt" then "rt"
    else "30d"
  if suffix = "7d" then
    { ad_spend := product.ad_spend_7d, ad_sales := product.ad_sales_7d
      ad_orders := product.ad_orders_7d, acos := product.acos_7d }
  else if suffix = "14d" then
    { ad_spend := product.ad_spend_14d, ad_sales := product.ad_sales_14d
      ad_orders := product.ad_orders_14d, acos := product.acos_14d }
  else if suffix = "rt" then
    { ad_spend := product.ad_spend_rt, ad_sales := product.ad_sales_rt
      ad_orders := product.ad_orders_rt, acos := product.acos_rt }
  else
    { ad_spend := product.ad_spend_30d, ad_sales := product.ad_sales_30d
      ad_orders := product.ad_orders_30d, acos := product.acos_30d }

end RaasAdmin

namespace RaasAdmin

theorem jsOrEmpty_eq (s : String) : jsOrEmpty s = s := by
  unfold jsOrEmpty
  split
  · rename_i h
    exact h.symm
  · rfl

theorem doubleBar_data : ("||" : String).data = ['|', '|'] := rfl

theorem append_doubleBar_inj {a b x y : List Char}
    (ha : ('|' : Char) ∉ a) (hb : ('|' : Char) ∉ b)
    (h : a ++ '|' :: '|' :: x = b ++ '|' :: '|' :: y) : a = b ∧ x = y := by
  induction a generalizing b with
  | nil =>
    cases b with
    | nil =>
      simp only [List.nil_append] at h
      exact ⟨rfl, by injection h with h1 h2; injection h2⟩
    | cons e b' =>
      simp only [List.nil_append, List.cons_append] at h
      injection h with h1 h2
      exact absurd (h1 ▸ List.mem_cons_self e b') hb
  | cons d a' ih =>
    cases b with
    | nil =>
      simp only [List.cons_append, List.nil_append] at h
      injection h with h1 h2
      exact absurd (h1.symm ▸ List.mem_cons_self d a') ha
    | cons e b' =>
      simp only [List.cons_append] at h
      injection h with h1 h2
      have ha' : ('|' : Char) ∉ a' := fun hm => ha (List.mem_cons_of_mem _ hm)
      have hb' : ('|' : Char) ∉ b' := fun hm => hb (List.mem_cons_of_mem _ hm)
      obtain ⟨hab, hxy⟩ := ih ha' hb' h2
      exact ⟨by rw [h1, hab], hxy⟩

theorem compositeKeyFields_data (a h asin c r s : String) :
    (compositeKeyFields a h asin c r s).data =
      a.data ++ '|' :: '|' :: (h.data ++ '|' :: '|' :: (asin.data ++ '|' :: '|' ::
        (c.data ++ '|' :: '|' :: (r.data ++ '|' :: '|' :: s.data)))) := by
  simp [compositeKeyFields, jsOrEmpty_eq, String.data_append, doubleBar_data,
    List.append_assoc]

/-- C1 fails as stated: `collisionP1` and `collisionP2` differ in the
`amazon_profile_name` identity field but get identical composite keys. -/
theorem compositeKey_not_injective :
    collisionP1.compositeKey = collisionP2.compositeKey ∧
      collisionP1.amazon_profile_name ≠ collisionP2.amazon_profile_name :=
  ⟨rfl, by decide⟩

/-- C1 (amended): for products whose six identity fields are free of the
delimiter character `|`, the composite keys agree exactly when all six
identity fields agree; in particular two such products differing in at least
one identity field get different keys, and identical fields give identical
keys. -/
theorem compositeKey_inj_iff (p q : Product)
    (hp1 : noDelimChar p.amazon_profile_name) (hp2 : noDelimChar p.hanna_org_name)
    (hp3 : noDelimChar p.asin) (hp4 : noDelimChar p.category_name)
    (hp5 : noDelimChar p.raas_plan) (hp6 : noDelimChar p.start_date)
    (hq1 : noDelimChar q.amazon_profile_name) (hq2 : noDelimChar q.hanna_org_name)
    (hq3 : noDelimChar q.asin) (hq4 : noDelimChar q.category_name)
    (hq5 : noDelimChar q.raas_plan) (hq6 : noDelimChar q.start_date) :
    p.compositeKey = q.compositeKey ↔
      (p.amazon_profile_name = q.amazon_profile_name ∧
       p.hanna_org_name = q.hanna_org_name ∧
       p.asin = q.asin ∧
       p.category_name = q.category_name ∧
       p.raas_plan = q.raas_plan ∧
       p.start_date = q.start_date) := by
  constructor
  · intro hkey
    have hd : (p.compositeKey).data = (q.compositeKey).data := by rw [hkey]
    rw [Product.compositeKey, Product.compositeKey,
      compositeKeyFields_data, compositeKeyFields_data] at hd
    obtain ⟨e1, hd⟩ := append_doubleBar_inj hp1 hq1 hd
    obtain ⟨e2, hd⟩ := append_doubleBar_inj hp2 hq2 hd
    obtain ⟨e3, hd⟩ := append_doubleBar_inj hp3 hq3 hd
    obtain ⟨e4, hd⟩ := append_doubleBar_inj hp4 hq4 hd
    obtain ⟨e5, e6⟩ := append_doubleBar_inj hp5 hq5 hd
    exact ⟨String.ext e1, String.ext e2, String.ext e3, String.ext e4,
      String.ext e5, String.ext e6⟩
  · rintro ⟨e1, e2, e3, e4, e5, e6⟩
    rw [Product.compositeKey, Product.compositeKey, e1, e2, e3, e4, e5, e6]

/-- C1 witness: the amended equivalence evaluated at two concrete
delimiter-free products that differ in `asin`. -/
theorem compositeKey_inj_iff_witness :
    ({ amazon_profile_name := "profile", hanna_org_name := "org", asin := "B01"
       category_name := "cat", raas_plan := "Climb Plan"
       start_date := "2025-01-01", end_date := "" } : Product).compositeKey =
      ({ amazon_profile_name := "profile", hanna_org_name := "org", asin := "B02"
         category_name := "cat", raas_plan := "Climb Plan"
         start_date := "2025-01-01", end_date := "" } : Product).compositeKey ↔
      ("profile" = "profile" ∧ "org" = "org" ∧ "B01" = "B02" ∧
       "cat" = "cat" ∧ "Climb Plan" = "Climb Plan" ∧
       "2025-01-01" = "2025-01-01") :=
  compositeKey_inj_iff _ _ (by decide) (by decide) (by decide) (by decide)
    (by decide) (by decide) (by decide) (by decide) (by decide) (by decide)
    (by decide) (by decide)

end RaasAdmin

namespace RaasAdmin

/-- C2: the query-parameter set derived for the paginated product-progress
list never contains an `ad_window` key — neither straight out of
`queryParams` nor after the extra stripping in `useGetProductProgress` —
for every filter object and pagination state. -/
theorem queryParams_no_ad_window (pagination : Pagination) (filters : FilterObj) :
    (queryParams pagination filters).filter (fun kv => kv.1 == "ad_window") = [] ∧
    (productProgressRequestParams (queryParams pagination filters)).filter
      (fun kv => kv.1 == "ad_window") = [] := by
  have h1 : (queryParams pagination filters).filter (fun kv => kv.1 == "ad_window") = [] := by
    rw [queryParams, List.filter_append, List.filter_filter]
    rw [show (([("page", JsVal.num pagination.current),
        ("page_size", JsVal.num pagination.pageSize)] : FilterObj).filter
        (fun kv => kv.1 == "ad_window")) = [] from rfl]
    rw [List.nil_append]
    rw [List.filter_eq_nil_iff]
    intro kv _
    simp only [Bool.and_eq_true, beq_iff_eq, bne_iff_ne, ne_eq]
    tauto
  refine ⟨h1, ?_⟩
  rw [productProgressRequestParams, List.filter_filter, List.filter_eq_nil_iff]
  intro kv hkv
  simp only [Bool.and_eq_true, beq_iff_eq, bne_iff_ne, ne_eq]
  tauto

/-- C3 fails as stated at `queryParams`: a filter key holding the empty
array `[]` survives into the derived parameter set, because the code's
strict-equality checks (`!== undefined`, `!== null`, `!== ''`) do not
exclude an empty array. -/
theorem queryParams_keeps_empty_array :
    ("amazon_profile_name", JsVal.arr []) ∈
      queryParams { current := 1, pageSize := 20, total := 0 } emptyArrFilter := by
  decide

/-- C3 (amended): `queryParams` omits every key whose value is `undefined`,
`null` or `''`; empty arrays are dropped one step earlier, by `handleSearch`
in the filter form, so the parameters derived from any searched filter form
contain no `undefined`, `null`, `''` or `[]` value at all. -/
theorem queryParams_drops_empty_values (pagination : Pagination)
    (filters filterForm : FilterObj) :
    (queryParams pagination filters).filter (fun kv => isEmptyScalarVal kv.2) = [] ∧
    (queryParams pagination (handleSearchFilters filterForm)).filter
      (fun kv => isEmptyParamVal kv.2) = [] := by
  constructor
  · rw [queryParams, List.filter_append, List.filter_filter]
    rw [show (([("page", JsVal.num pagination.current),
        ("page_size", JsVal.num pagination.pageSize)] : FilterObj).filter
        (fun kv => isEmptyScalarVal kv.2)) = [] from rfl]
    rw [List.nil_append, List.filter_eq_nil_iff]
    intro kv _
    obtain ⟨k, v⟩ := kv
    rcases v <;>
      simp only [isEmptyScalarVal, Bool.and_eq_true, bne_iff_ne, ne_eq,
        beq_iff_eq, JsVal.str.injEq] <;>
      tauto
  · rw [queryParams, List.filter_append, List.filter_filter]
    rw [show (([("page", JsVal.num pagination.current),
        ("page_size", JsVal.num pagination.pageSize)] : FilterObj).filter
        (fun kv => isEmptyParamVal kv.2)) = [] from rfl]
    rw [List.nil_append, List.filter_eq_nil_iff]
    intro kv hkv
    rw [handleSearchFilters, List.mem_filter] at hkv
    obtain ⟨-, hkept⟩ := hkv
    obtain ⟨k, v⟩ := kv
    rcases v <;>
      simp_all only [isEmptyParamVal, Bool.and_eq_true, bne_iff_ne, ne_eq,
        beq_iff_eq, JsVal.str.injEq, Bool.not_eq_true', Bool.not_eq_true] <;>
      tauto

end RaasAdmin

namespace RaasAdmin

/-- C4: submitting the form divides a non-null `target_acos` by 100 exactly
once (25 becomes 1/4 = 0.25) and sends null through unchanged; loading a row
into the edit form multiplies a non-null stored `target_acos` by 100 exactly
once and leaves null as null. -/
theorem target_acos_converted_once (formData : ProductCreate) (isEditing : Bool)
    (row : ProductProgress) :
    (handleModalOkPayload formData isEditing).target_acos =
      Option.map (fun v => v / 100) formData.target_acos ∧
    (handleEditFormData row).target_acos =
      Option.map (fun v => v * 100) row.target_acos ∧
    (handleModalOkPayload { formData with target_acos := some 25 } isEditing).target_acos =
      some (1 / 4) ∧
    (handleModalOkPayload { formData with target_acos := none } isEditing).target_acos =
      none ∧
    (handleEditFormData { row with target_acos := none }).target_acos = none := by
  refine ⟨?_, ?_, ?_, rfl, rfl⟩
  · cases h : formData.target_acos <;> simp [handleModalOkPayload, h]
  · cases h : row.target_acos <;> simp [handleEditFormData, h]
  · simp [handleModalOkPayload]
    norm_num

/-- C5: for every fraction `x` in `[0, 5/2]`, loading `x` into the edit form
(times 100) and submitting the resulting form value (divided by 100) yields
exactly `x` again. -/
theorem target_acos_roundtrip (x : ℚ) (h0 : 0 ≤ x) (h1 : x ≤ 5 / 2)
    (row : ProductProgress) (formData : ProductCreate) (isEditing : Bool) :
    (handleModalOkPayload
      { formData with
          target_acos := (handleEditFormData { row with target_acos := some x }).target_acos }
      isEditing).target_acos = some x := by
  simp only [handleEditFormData, handleModalOkPayload, Option.some.injEq]
  rw [mul_div_assoc]
  norm_num

/-- C5 witness: the round trip evaluated at the fraction 1/4. -/
theorem target_acos_roundtrip_witness :
    0 ≤ (1 / 4 : ℚ) ∧ (1 / 4 : ℚ) ≤ 5 / 2 ∧
    (handleModalOkPayload
      { amazon_profile_name := "profile", hanna_org_name := "org", asin := "B01"
        category_name := "cat", raas_plan := "Climb Plan"
        start_date := "2025-01-01", end_date := ""
        target_acos :=
          (handleEditFormData
            { progressRowOngoing with target_acos := some (1 / 4) }).target_acos }
      true).target_acos = some (1 / 4) :=
  ⟨by norm_num, by norm_num,
    target_acos_roundtrip (1 / 4) (by norm_num) (by norm_num) progressRowOngoing
      { amazon_profile_name := "profile", hanna_org_name := "org", asin := "B01"
        category_name := "cat", raas_plan := "Climb Plan"
        start_date := "2025-01-01", end_date := "" } true⟩

theorem fdiv_thousand_lt {a : Int} (h : a < 30000) : a.fdiv 1000 < 30 := by
  have hdm := Int.fmod_add_fdiv a 1000
  have hnn : 0 ≤ a.fmod 1000 := Int.fmod_nonneg' a (by norm_num)
  have hub : a.fmod 1000 < 1000 := Int.fmod_lt_of_pos a (by norm_num)
  omega

/-- C6: a refresh click issues no trigger-update request when the last known
successful update lies strictly less than 30 seconds in the past, or while a
trigger is in flight (`hasTriggeredUpdate` / `isUpdating`), or while a
cooldown countdown is active. -/
theorem refresh_guard (s : UpdateControlState) (nowMs T : Int)
    (h : (s.lastUpdatedAt = some T ∧ nowMs < T + 30000) ∨
         s.hasTriggeredUpdate = true ∨ s.isUpdating = true ∨
         0 < s.updateCooldownRemaining) :
    (handleUpdateData s nowMs).2 = false := by
  have hdis : isUpdateDisabled s nowMs = true := by
    rcases h with ⟨hla, hlt⟩ | h | h | h
    · have hfd : (nowMs - T).fdiv 1000 < 30 := fdiv_thousand_lt (by omega)
      simp [isUpdateDisabled, timeSinceLastUpdate, hla, hfd]
    · simp [isUpdateDisabled, h]
    · simp [isUpdateDisabled, h]
    · simp [isUpdateDisabled, isInCooldown, h]
  simp [handleUpdateData, hdis]

/-- C6 witness: a click 10 seconds after a successful update at timestamp 0,
with no trigger in flight and no cooldown, issues no request. -/
theorem refresh_guard_witness :
    (handleUpdateData
      { isUpdating := false, hasTriggeredUpdate := false
        updateCooldownRemaining := 0, lastUpdatedAt := some 0 } 10000).2 = false :=
  refresh_guard _ 10000 0 (Or.inl ⟨rfl, by norm_num⟩)

/-- C7: the response interceptor always re-rejects the error (no retry); on a
401 it clears the stored auth state and navigates to `/auth/sign-in` exactly
once each — whether or not a global router is registered — and on any other
status it emits no session-teardown action at all. -/
theorem unauthorized_teardown (hasGlobalRouter : Bool) (status : Option Nat) :
    (onResponseError hasGlobalRouter status).2 = true ∧
    (status = some 401 →
      (onResponseError hasGlobalRouter status).1.count SessionAction.clearAuthState = 1 ∧
      (onResponseError hasGlobalRouter status).1.count
        (SessionAction.navigate "/auth/sign-in") = 1) ∧
    (status ≠ some 401 → (onResponseError hasGlobalRouter status).1 = []) := by
  refine ⟨?_, ?_, ?_⟩
  · by_cases h : status = some 401 <;> simp [onResponseError, h]
  · intro h
    subst h
    cases hasGlobalRouter <;> decide
  · intro h
    simp [onResponseError, h]

/-- C7 witness: the 401 clause evaluated with a registered router. -/
theorem unauthorized_teardown_witness :
    (onResponseError true (some 401)).1.count
      (SessionAction.navigate "/auth/sign-in") = 1 :=
  ((unauthorized_teardown true (some 401)).2.1 rfl).2

theorem invalidate_after_trigger_aux (i : ℕ) (k : String)
    (h : createProductOnSuccess[i]? = some (ApiEvent.invalidateQueries k)) :
    ∃ j, j < i ∧ createProductOnSuccess[j]? =
      some (ApiEvent.httpPost "/progress/update") := by
  match i with
  | 0 => simp [createProductOnSuccess] at h
  | 1 => simp [createProductOnSuccess] at h
  | 2 => exact ⟨0, by omega, rfl⟩
  | 3 => exact ⟨0, by omega, rfl⟩
  | 4 => exact ⟨0, by omega, rfl⟩
  | n + 5 => simp [createProductOnSuccess] at h

/-- C9: each of the create/update/cancel success handlers runs exactly the
sequence "POST /progress/update, wait 2000 ms, invalidate products,
productProgress, lastUpdateTime", so every cache invalidation is preceded by
the trigger request. -/
theorem mutation_success_order :
    (createProductOnSuccess =
      [ApiEvent.httpPost "/progress/update", ApiEvent.delayMs 2000,
       ApiEvent.invalidateQueries "products",
       ApiEvent.invalidateQueries "productProgress",
       ApiEvent.invalidateQueries "lastUpdateTime"] ∧
     updateProductOnSuccess = createProductOnSuccess ∧
     cancelProductOnSuccess = createProductOnSuccess) ∧
    (∀ (i : ℕ) (k : String),
      createProductOnSuccess[i]? = some (ApiEvent.invalidateQueries k) →
        ∃ j, j < i ∧ createProductOnSuccess[j]? =
          some (ApiEvent.httpPost "/progress/update")) ∧
    (∀ (i : ℕ) (k : String),
      updateProductOnSuccess[i]? = some (ApiEvent.invalidateQueries k) →
        ∃ j, j < i ∧ updateProductOnSuccess[j]? =
          some (ApiEvent.httpPost "/progress/update")) ∧
    (∀ (i : ℕ) (k : String),
      cancelProductOnSuccess[i]? = some (ApiEvent.invalidateQueries k) →
        ∃ j, j < i ∧ cancelProductOnSuccess[j]? =
          some (ApiEvent.httpPost "/progress/update")) :=
  ⟨⟨rfl, rfl, rfl⟩, invalidate_after_trigger_aux, invalidate_after_trigger_aux,
    invalidate_after_trigger_aux⟩

/-- C9 witness: the first invalidation (index 2, key "products") of the
create handler is preceded by the trigger request. -/
theorem mutation_success_order_witness :
    ∃ j, j < 2 ∧ createProductOnSuccess[j]? =
      some (ApiEvent.httpPost "/progress/update") :=
  mutation_success_order.2.1 2 "products" rfl

theorem selectedProductsGo_spec (sel : List String) (rows : List FlattenedRow) :
    ∀ seen : List String,
      ((selectedProductsGo sel rows seen).map ProductProgress.compositeKey).Nodup ∧
      ∀ k ∈ (selectedProductsGo sel rows seen).map ProductProgress.compositeKey,
        k ∉ seen := by
  induction rows with
  | nil =>
    intro seen
    exact ⟨List.nodup_nil, by simp [selectedProductsGo]⟩
  | cons row rows ih =>
    intro seen
    by_cases hsel : row.rowKey ∈ sel
    · by_cases hseen : row.product.compositeKey ∈ seen
      · have hunfold : selectedProductsGo sel (row :: rows) seen =
            selectedProductsGo sel rows seen := by
          simp [selectedProductsGo, hsel, hseen]
        rw [hunfold]
        exact ih seen
      · obtain ⟨hnd, hnotin⟩ := ih (row.product.compositeKey :: seen)
        have hunfold : selectedProductsGo sel (row :: rows) seen =
            row.product ::
              selectedProductsGo sel rows (row.product.compositeKey :: seen) := by
          simp [selectedProductsGo, hsel, hseen]
        rw [hunfold, List.map_cons]
        refine ⟨List.nodup_cons.mpr ⟨fun hmem => ?_, hnd⟩, ?_⟩
        · exact hnotin _ hmem (List.mem_cons_self _ _)
        · intro k hk
          rcases List.mem_cons.mp hk with rfl | hk2
          · exact hseen
          · intro hks
            exact hnotin _ hk2 (List.mem_cons_of_mem _ hks)
    · have hunfold : selectedProductsGo sel (row :: rows) seen =
          selectedProductsGo sel rows seen := by
        simp [selectedProductsGo, hsel]
      rw [hunfold]
      exact ih seen

/-- C8: for every table page and row selection, `selectedProducts` holds at
most one entry per composite key; in the concrete scenario, two selected
rows with identical identity fields but different statuses collapse into a
single entry. -/
theorem selectedProducts_dedup (tableData : List ProductProgress)
    (selectedRowKeys : List String) :
    ((selectedProducts tableData selectedRowKeys).map
      ProductProgress.compositeKey).Nodup ∧
    selectedProducts [progressRowOngoing, progressRowCancelled]
      ((flattenedRows [progressRowOngoing, progressRowCancelled]).map
        FlattenedRow.rowKey) = [progressRowOngoing] :=
  ⟨(selectedProductsGo_spec selectedRowKeys (flattenedRows tableData) []).1, by decide⟩

/-- C10: when the filter's ad window is absent or holds any string other
than "7d", "14d" or "rt", `getAdData` projects exactly the row's 30-day
fields. -/
theorem getAdData_defaults_to_30d (product : ProductProgress) (w : Option String)
    (h : match w with
         | none => True
         | some s => s ≠ "7d" ∧ s ≠ "14d" ∧ s ≠ "rt") :
    getAdData product w =
      { ad_spend := product.ad_spend_30d, ad_sales := product.ad_sales_30d
        ad_orders := product.ad_orders_30d, acos := product.acos_30d } := by
  cases w with
  | none => rfl
  | some s =>
    obtain ⟨h1, h2, h3⟩ := h
    by_cases hs : s = ""
    · subst hs
      rfl
    · simp [getAdData, currentAdWindow, jsOrDefault, hs, h1, h2, h3]

/-- C10 witness: an unknown window string selects the 30-day fields. -/
theorem getAdData_defaults_to_30d_witness :
    getAdData progressRowOngoing (some "weekly") =
      { ad_spend := progressRowOngoing.ad_spend_30d
        ad_sales := progressRowOngoing.ad_sales_30d
        ad_orders := progressRowOngoing.ad_orders_30d
        acos := progressRowOngoing.acos_30d } :=
  getAdData_defaults_to_30d progressRowOngoing (some "weekly") (by decide)

end RaasAdmin
